import Mathlib

/-!
Verification of the book-marketplace backend (`main.py`, `schemas.py`).

The Python source is shallowly embedded: documents (Python dicts flowing to
and from the Mongo store) are association lists of string keys and dynamic
values, handlers are pure functions from a validated payload and a store
state to a result and a new store state, and HTTP failures (`HTTPException`,
request-body validation, pydantic model validation) are explicit error
values.  `database.py` is imported by `main.py` but is not part of the
sources; its two entry points (`create_document`, `get_documents`) are
modelled from the specification and are marked as such in their doc
comments.  The external collaborators (the Mongo driver's `find_one`,
`bson.ObjectId`, pydantic's `EmailStr`) are likewise modelled by pure
functions; each doc comment says what is being modelled.
-/

set_option autoImplicit false

namespace BookMarket

/-- Dynamic values stored in a document: text, numbers (Python floats are
modelled as rationals; the code never does arithmetic on them), BSON object
identifiers, and Python `None` (BSON null). -/
inductive Value where
  | vStr : String → Value
  | vNum : Rat → Value
  | vOid : String → Value
  | vNone : Value
deriving DecidableEq

/-- A Python dict / BSON document: an association list from field names to
values.  Python dicts have unique keys; the operations below coincide with
Python dict semantics on every list whose keys are unique. -/
abbrev Dict := List (String × Value)

/-- Dictionary lookup, `d[k]` / `d.get(k)`: the first entry with key `k`. -/
def dictGet (d : Dict) (k : String) : Option Value :=
  match d with
  | [] => none
  | kv :: rest => if kv.1 = k then some kv.2 else dictGet rest k

/-- Key membership, Python `k in d`. -/
def hasKey (d : Dict) (k : String) : Bool :=
  match d with
  | [] => false
  | kv :: rest => if kv.1 = k then true else hasKey rest k

/-- Key removal, Python `d.pop(k)` (the removed value is read separately
with `dictGet`). -/
def dictRemove (d : Dict) (k : String) : Dict :=
  match d with
  | [] => []
  | kv :: rest => if kv.1 = k then dictRemove rest k else kv :: dictRemove rest k

/-- Assignment `d[k] = v`: replace the value at an existing key in place,
otherwise append the new entry at the end (Python insertion order). -/
def dictSet (d : Dict) (k : String) (v : Value) : Dict :=
  match d with
  | [] => [(k, v)]
  | kv :: rest => if kv.1 = k then (k, v) :: rest else kv :: dictSet rest k v

/-- Models Python `str(...)` as applied to stored values; the code only ever
applies it to `ObjectId` values, whose text rendering is their hex string. -/
def pyStr : Value → String
  | .vStr s => s
  | .vNum q => toString q
  | .vOid o => o
  | .vNone => "None"

/-- Python truthiness of an optional document (`if not doc: ...`): `None`
and the empty dict are falsy. -/
def pyTruthy : Option Dict → Bool
  | none => false
  | some d => !d.isEmpty

/-- Body of `to_public` past the falsiness check (`main.py` lines 29–32):
copy the document and, when the internal identifier key `_id` is present,
remove it and write its text rendering under `id`. -/
def toPublicCore (d : Dict) : Dict :=
  match dictGet d "_id" with
  | some v => dictSet (dictRemove d "_id") "id" (.vStr (pyStr v))
  | none => d

/-- The Public-View Mapper `to_public` (`main.py` lines 26–32) restricted to
dict arguments: a falsy (empty) dict is returned unchanged, otherwise the
identifier is renamed. -/
def to_public_dict (d : Dict) : Dict :=
  if d.isEmpty then d else toPublicCore d

/-- The Public-View Mapper `to_public` (`main.py` lines 26–32) on an
optional document (`find_one` may hand it `None`). -/
def to_public (doc : Option Dict) : Option Dict :=
  match doc with
  | none => none
  | some d => some (to_public_dict d)

/-- State-passing embedding of `to_public` that tracks the caller's dict
object through the call: Python `d = doc.copy()` (line 29) creates a fresh
dict object, and both subsequent writes (`d.pop("_id")`, `d["id"] = ...`)
target the copy `d`.  The first component of the result is the caller's
object as left after the call, the second is the returned value. -/
def to_public_frame (doc : Option Dict) : Option Dict × Option Dict :=
  match doc with
  | none => (none, none)
  | some caller =>
    if caller.isEmpty then (some caller, some caller)
    else
      let d := caller
      match dictGet d "_id" with
      | some v =>
        let d1 := dictRemove d "_id"
        let d2 := dictSet d1 "id" (.vStr (pyStr v))
        (some caller, some d2)
      | none => (some caller, some d)

structure Store where
  user : List Dict
  listing : List Dict
  nextId : Nat
deriving DecidableEq

/-- Hex digit characters as produced by an ObjectId's text rendering. -/
def hexChar (n : Nat) : Char :=
  if n < 10 then Char.ofNat (48 + n) else Char.ofNat (87 + n)

/-- Models the store-generated object identifier (Mongo `ObjectId`): the
`n`-th identifier handed out, rendered as its 24-character hex string. -/
def genOid (n : Nat) : String :=
  String.mk ((List.range 24).map fun i => hexChar (n / 16 ^ (23 - i) % 16))

/-- A character bson ObjectId parsing accepts: a hexadecimal digit. -/
def isHexDigitC (c : Char) : Bool :=
  (decide ('0' ≤ c) && decide (c ≤ '9')) ||
  (decide ('a' ≤ c) && decide (c ≤ 'f')) ||
  (decide ('A' ≤ c) && decide (c ≤ 'F'))

/-- Models `bson.ObjectId(s)` (external library): parsing succeeds exactly
when the string is 24 hexadecimal characters, and raises `InvalidId`
otherwise. -/
def parseOid (s : String) : Option String :=
  if s.length = 24 ∧ s.toList.all isHexDigitC then some s else none

/-- Exact-match filter as used with `find_one` (`{"email": ...}`,
`{"_id": ...}`): every key of the filter must be present in the document
with exactly the filter's value. -/
def matchesFlt (flt : Dict) (d : Dict) : Bool :=
  flt.all fun kv => dictGet d kv.1 == some kv.2

/-- Models the Mongo driver's `collection.find_one(filter)` (external
collaborator): the first document of the collection, in insertion order,
matching the exact-match filter. -/
def find_one (coll : List Dict) (flt : Dict) : Option Dict :=
  coll.find? (matchesFlt flt)

/-- Models pydantic's `EmailStr` format check (external library): exactly
one `@`, a non-empty local part, a non-empty domain containing a dot, and
no space.  No claim depends on the exact format rules. -/
def isValidEmail (s : String) : Bool :=
  match s.toList.span (fun c => c != '@') with
  | (lp, '@' :: dom) =>
    !lp.isEmpty && !dom.isEmpty && dom.all (fun c => c != '@') &&
      dom.contains '.' && !s.toList.contains ' '
  | _ => false

/-- Errors a request can end in: FastAPI request-body validation failure
(the payload model rejects the body, HTTP 422), an `HTTPException` raised
by a handler with its status and detail, or a pydantic `ValidationError`
raised inside a handler body (uncaught, surfacing as a server error). -/
inductive ApiError where
  | requestValidation : ApiError
  | http : Nat → String → ApiError
  | pydanticValidation : ApiError
deriving DecidableEq

/-- A store operation issued by a handler, for claims about which
collections are touched. -/
inductive StoreOp where
  | findOneOp : String → StoreOp
  | insertOp : String → StoreOp
deriving DecidableEq

/-- The `RegisterPayload` request model (`main.py` lines 72–75). -/
structure RegisterPayload where
  name : String
  email : String
  password_hash : String

/-- The `LoginPayload` request model (`main.py` lines 78–80). -/
structure LoginPayload where
  email : String
  password_hash : String

/-- The `ListingCreate` request model (`main.py` lines 103–111). -/
structure ListingCreate where
  title : String
  author : String
  isbn : Option String
  price : Rat
  condition : String
  cover : Option String
  description : Option String
  seller_email : String

/-- Validation performed by pydantic on `RegisterPayload`: beyond the field
types (intrinsic to the embedding), only the `EmailStr` format check on
`email`.  No constraint is declared on `name` or `password_hash`. -/
def registerValid (p : RegisterPayload) : Bool :=
  isValidEmail p.email

/-- Validation performed by pydantic on `ListingCreate`: beyond the field
types, only the `EmailStr` format check on `seller_email`.  No bound is
declared on `price` and no non-emptiness on `title`, `author` or
`condition`. -/
def listingCreateValid (p : ListingCreate) : Bool :=
  isValidEmail p.seller_email

/-- Validation performed by pydantic when `schemas.Listing` is constructed
from the dumped payload (`main.py` line 120): `price` must satisfy `ge=0`
(`schemas.py` line 27) and `seller_email` the `EmailStr` format. -/
def listingModelValid (p : ListingCreate) : Bool :=
  decide (0 ≤ p.price) && isValidEmail p.seller_email

/-- An optional text field as serialized by `model_dump`: `None` becomes
BSON null. -/
def optV : Option String → Value
  | none => .vNone
  | some s => .vStr s

/-- The fields of the `User` document persisted by `register`
(`schemas.py` lines 10–17). -/
def userFields (p : RegisterPayload) : Dict :=
  [("name", .vStr p.name), ("email", .vStr p.email),
   ("password_hash", .vStr p.password_hash)]

/-- The fields of the `Listing` document persisted by `create_listing`:
the dumped payload plus the defaulted `status="active"`
(`schemas.py` lines 19–32). -/
def listingFields (p : ListingCreate) : Dict :=
  [("title", .vStr p.title), ("author", .vStr p.author),
   ("isbn", optV p.isbn), ("price", .vNum p.price),
   ("condition", .vStr p.condition), ("cover", optV p.cover),
   ("description", optV p.description),
   ("seller_email", .vStr p.seller_email), ("status", .vStr "active")]

/-- Modelled from the spec: `create_document(collection, model)` lives in
`database.py`, which is imported by `main.py` but absent from the sources.
Per the spec's Document Store Gateway contract it inserts the model's
fields into the named collection under a store-generated identifier and
returns that identifier as text. -/
def create_document (coll : String) (fields : Dict) (s : Store) :
    String × Store :=
  let oid := genOid s.nextId
  let doc : Dict := ("_id", .vOid oid) :: fields
  (oid,
    if coll = "user" then
      { s with user := s.user ++ [doc], nextId := s.nextId + 1 }
    else if coll = "listing" then
      { s with listing := s.listing ++ [doc], nextId := s.nextId + 1 }
    else
      { s with nextId := s.nextId + 1 })

/-- Case-insensitive substring test, modelling a Mongo `$regex` clause with
the `i` option as the spec describes it ("matched as a case-insensitive
substring/pattern against the corresponding stored field"). -/
def containsI (s pat : String) : Bool :=
  ((s.toList.map Char.toLower).tails).any
    fun t => (pat.toList.map Char.toLower).isPrefixOf t

/-- One `$regex`/`i` clause of a find filter evaluated on a document: the
field must be stored text containing the pattern case-insensitively (a
regex clause matches no non-string value). -/
def regexClauseMatches (d : Dict) (key pat : String) : Bool :=
  match dictGet d key with
  | some (.vStr str) => containsI str pat
  | _ => false

/-- Modelled from the spec: `get_documents(collection, filter)` lives in
`database.py`, absent from the sources.  Per the spec's gateway contract it
returns the documents of the named collection matching the filter, in
store (insertion) order; the filters the code passes it are `$regex`
clauses with the `i` option. -/
def get_documents (coll : String) (flt : List (String × String)) (s : Store) :
    List Dict :=
  let c := if coll = "user" then s.user
           else if coll = "listing" then s.listing else []
  c.filter fun d => flt.all fun fp => regexClauseMatches d fp.1 fp.2

/-- Handler `register` (`main.py` lines 83–90): look up a user by email; a
truthy hit is `DuplicateEmail` (HTTP 400, "Email already registered"),
otherwise persist the `User` and answer `{id, name, email}`.  The handler
also returns the resulting store state. -/
def register (p : RegisterPayload) (s : Store) :
    Except ApiError Dict × Store :=
  let ex := find_one s.user [("email", .vStr p.email)]
  if pyTruthy ex then
    (.error (.http 400 "Email already registered"), s)
  else
    let r := create_document "user" (userFields p) s
    (.ok [("id", .vStr r.1), ("name", .vStr p.name), ("email", .vStr p.email)],
     r.2)

/-- The register endpoint: FastAPI validates the body against
`RegisterPayload` before the handler runs. -/
def register_endpoint (p : RegisterPayload) (s : Store) :
    Except ApiError Dict × Store :=
  if !registerValid p then (.error .requestValidation, s) else register p s

/-- Handler `login` (`main.py` lines 93–99): look up a user by email; a
falsy result or a stored `password_hash` differing from the supplied one is
`InvalidCredentials` (HTTP 401, "Invalid credentials"); on success answer
`{id, name, email}` built with `user.get`. -/
def login (p : LoginPayload) (s : Store) : Except ApiError Dict :=
  match find_one s.user [("email", .vStr p.email)] with
  | none => .error (.http 401 "Invalid credentials")
  | some u =>
    if u.isEmpty then .error (.http 401 "Invalid credentials")
    else if dictGet u "password_hash" ≠ some (.vStr p.password_hash) then
      .error (.http 401 "Invalid credentials")
    else
      .ok [("id", .vStr (pyStr ((dictGet u "_id").getD .vNone))),
           ("name", (dictGet u "name").getD .vNone),
           ("email", (dictGet u "email").getD .vNone)]

/-- Handler `create_listing` (`main.py` lines 114–122): look up the seller
by email (first store access); a falsy result is `SellerNotFound` (HTTP
400, "Seller not found"); then `Listing(**payload.model_dump())` re-runs
pydantic validation (`price` must be `ge=0`), whose failure raises an
uncaught `ValidationError`; on success persist the listing and answer
`{id}`.  The handler also returns the list of store operations it issued
and the resulting store state. -/
def create_listing (p : ListingCreate) (s : Store) :
    Except ApiError Dict × List StoreOp × Store :=
  let seller := find_one s.user [("email", .vStr p.seller_email)]
  if !pyTruthy seller then
    (.error (.http 400 "Seller not found"), [.findOneOp "user"], s)
  else if !listingModelValid p then
    (.error .pydanticValidation, [.findOneOp "user"], s)
  else
    let r := create_document "listing" (listingFields p) s
    (.ok [("id", .vStr r.1)], [.findOneOp "user", .insertOp "listing"], r.2)

/-- The create-listing endpoint: FastAPI validates the body against
`ListingCreate` before the handler runs; a rejected body issues no store
operation. -/
def create_listing_endpoint (p : ListingCreate) (s : Store) :
    Except ApiError Dict × List StoreOp × Store :=
  if !listingCreateValid p then (.error .requestValidation, [], s)
  else create_listing p s

/-- One step of `filter_q` construction (`main.py` lines 134–139):
`if param: filter_q[key] = {"$regex": param, "$options": "i"}` — only a
truthy parameter (supplied and non-empty) adds its clause. -/
def addClause (fq : List (String × String)) (key : String)
    (f : Option String) : List (String × String) :=
  match f with
  | some x => if !x.isEmpty then fq ++ [(key, x)] else fq
  | none => fq

/-- Handler `list_listings` (`main.py` lines 131–141): build `filter_q`
from the truthy query parameters, fetch the matching listing documents and
map them to public shape. -/
def list_listings (title author isbn : Option String) (s : Store) :
    List Dict :=
  let fq := addClause (addClause (addClause [] "title" title)
    "author" author) "isbn" isbn
  (get_documents "listing" fq s).map to_public_dict

/-- Handler `get_listing` (`main.py` lines 144–152): `ObjectId(listing_id)`
failing to parse is `MalformedId` (HTTP 400, "Invalid ID"); a falsy
`find_one` result is `NotFound` (HTTP 404); otherwise the public-shaped
document is returned. -/
def get_listing (listing_id : String) (s : Store) : Except ApiError Dict :=
  match parseOid listing_id with
  | none => .error (.http 400 "Invalid ID")
  | some oid =>
    match find_one s.listing [("_id", .vOid oid)] with
    | none => .error (.http 404 "Not found")
    | some doc =>
      if doc.isEmpty then .error (.http 404 "Not found")
      else .ok (to_public_dict doc)

/-- The document built by `create_listing` for insertion: the
store-assigned identifier plus the dumped `Listing` fields. -/
def newListingDoc (p : ListingCreate) (oid : String) : Dict :=
  ("_id", .vOid oid) :: listingFields p

/-- Declarative reading of one search filter, following the spec's words:
an absent filter imposes no constraint; a supplied empty-string filter
imposes no constraint (it is a substring of everything — claim C9 records
that the code treats it as absent); a supplied non-empty filter requires
the stored field to be text containing the pattern case-insensitively. -/
def specClause (f : Option String) (key : String) (d : Dict) : Bool :=
  match f with
  | none => true
  | some p => if p.isEmpty then true else regexClauseMatches d key p

/-- A stored user document used by concrete instantiations. -/
def aliceDoc : Dict :=
  [("_id", .vOid "00000000000000000000abcd"), ("name", .vStr "Alice"),
   ("email", .vStr "alice@example.com"), ("password_hash", .vStr "h1")]

/-- A store holding exactly the one registered user `aliceDoc`. -/
def aliceStore : Store := ⟨[aliceDoc], [], 1⟩

theorem dictGet_dictSet_self (d : Dict) (k : String) (v : Value) :
    dictGet (dictSet d k v) k = some v := by
  induction d with
  | nil => simp [dictSet, dictGet]
  | cons kv rest ih =>
    by_cases h : kv.1 = k
    · simp [dictSet, h, dictGet]
    · simp [dictSet, h, dictGet, ih]

theorem dictGet_dictSet_ne (d : Dict) (k k' : String) (v : Value) (h : k' ≠ k) :
    dictGet (dictSet d k v) k' = dictGet d k' := by
  induction d with
  | nil => simp [dictSet, dictGet, Ne.symm h]
  | cons kv rest ih =>
    by_cases hk : kv.1 = k
    · simp [dictSet, hk, dictGet, Ne.symm h, h]
    · by_cases hk2 : kv.1 = k'
      · simp [dictSet, hk, dictGet, hk2, h]
      · simp [dictSet, hk, dictGet, hk2, ih, h]

theorem dictGet_dictRemove_ne (d : Dict) (k k' : String) (h : k' ≠ k) :
    dictGet (dictRemove d k) k' = dictGet d k' := by
  induction d with
  | nil => rfl
  | cons kv rest ih =>
    by_cases hk : kv.1 = k
    · simp [dictRemove, hk, dictGet, Ne.symm h, h, ih]
    · by_cases hk2 : kv.1 = k'
      · simp [dictRemove, hk, dictGet, hk2, h]
      · simp [dictRemove, hk, dictGet, hk2, ih, h]

theorem hasKey_dictRemove_self (d : Dict) (k : String) :
    hasKey (dictRemove d k) k = false := by
  induction d with
  | nil => rfl
  | cons kv rest ih =>
    by_cases hk : kv.1 = k
    · simp [dictRemove, hk, ih]
    · simp [dictRemove, hk, hasKey, ih]

/-- The database: one list of documents per collection used by the code
(`user`, `listing`; the collection name is the lowercased schema class name,
`schemas.py` docstring), plus a counter from which store-assigned object
identifiers are generated.  Mongo stores documents in insertion order and
`find` scans them in that order. -/

theorem hasKey_dictSet_ne (d : Dict) (k k' : String) (v : Value) (h : k' ≠ k) :
    hasKey (dictSet d k v) k' = hasKey d k' := by
  induction d with
  | nil => simp [dictSet, hasKey, Ne.symm h]
  | cons kv rest ih =>
    by_cases hk : kv.1 = k
    · simp [dictSet, hk, hasKey, Ne.symm h, h]
    · by_cases hk2 : kv.1 = k'
      · simp [dictSet, hk, hasKey, hk2, h]
      · simp [dictSet, hk, hasKey, hk2, ih, h]

theorem hexChar_hex : ∀ m : Nat, m < 16 → isHexDigitC (hexChar m) = true := by
  decide

theorem genOid_length (n : Nat) : (genOid n).length = 24 := by
  have h : (genOid n).length
      = ((List.range 24).map fun i => hexChar (n / 16 ^ (23 - i) % 16)).length := rfl
  rw [h, List.length_map, List.length_range]

theorem genOid_toList (n : Nat) :
    (genOid n).toList = (List.range 24).map fun i => hexChar (n / 16 ^ (23 - i) % 16) :=
  rfl

theorem genOid_hex (n : Nat) : (genOid n).toList.all isHexDigitC = true := by
  rw [genOid_toList, List.all_eq_true]
  intro c hc
  rw [List.mem_map] at hc
  obtain ⟨i, _, rfl⟩ := hc
  exact hexChar_hex _ (Nat.mod_lt _ (by norm_num))

theorem parseOid_genOid (n : Nat) : parseOid (genOid n) = some (genOid n) := by
  show (if (genOid n).length = 24 ∧ (genOid n).toList.all isHexDigitC
        then some (genOid n) else none) = some (genOid n)
  exact if_pos ⟨genOid_length n, genOid_hex n⟩

theorem genOid_ne_empty (n : Nat) : genOid n ≠ "" := by
  intro h
  have h24 := genOid_length n
  rw [h] at h24
  simp at h24

theorem matchesFlt_single (k : String) (v : Value) (d : Dict) :
    matchesFlt [(k, v)] d = (dictGet d k == some v) := by
  simp [matchesFlt]

theorem find_one_some_matches (coll : List Dict) (flt : Dict) (d : Dict)
    (h : find_one coll flt = some d) : matchesFlt flt d = true :=
  List.find?_some h

theorem find_one_append_fresh (l : List Dict) (d : Dict) (flt : Dict)
    (h : ∀ d' ∈ l, matchesFlt flt d' = false) (hd : matchesFlt flt d = true) :
    find_one (l ++ [d]) flt = some d := by
  induction l with
  | nil => simp [find_one, List.find?, hd]
  | cons x xs ih =>
    have hx := h x (List.mem_cons_self x xs)
    have hrest := ih fun d' hd' => h d' (List.mem_cons_of_mem _ hd')
    simpa [find_one, List.find?, hx] using hrest

/-- Claim C4: on a non-empty stored document containing the internal
identifier key `_id`, `to_public` removes `_id`, adds `id` holding the
identifier rendered as text, and leaves every other key's value unchanged;
an absent document (`None`) maps to itself. -/
theorem to_public_c4 (d : Dict) (v : Value) (hne : d ≠ [])
    (hid : dictGet d "_id" = some v) :
    hasKey (to_public_dict d) "_id" = false ∧
    dictGet (to_public_dict d) "id" = some (.vStr (pyStr v)) ∧
    (∀ k : String, k ≠ "_id" → k ≠ "id" →
      dictGet (to_public_dict d) k = dictGet d k) ∧
    to_public none = none := by
  have hde : d.isEmpty = false := by
    cases d with
    | nil => exact absurd rfl hne
    | cons x xs => rfl
  have hcore : to_public_dict d = dictSet (dictRemove d "_id") "id" (.vStr (pyStr v)) := by
    simp [to_public_dict, hde, toPublicCore, hid]
  refine ⟨?_, ?_, ?_, rfl⟩
  · rw [hcore, hasKey_dictSet_ne _ _ _ _ (by decide)]
    exact hasKey_dictRemove_self d "_id"
  · rw [hcore]
    exact dictGet_dictSet_self _ _ _
  · intro k hk1 hk2
    rw [hcore, dictGet_dictSet_ne _ _ _ _ hk2, dictGet_dictRemove_ne _ _ _ hk1]

theorem to_public_c4_witness :
    hasKey (to_public_dict [("_id", Value.vOid "5f"), ("title", Value.vStr "Dune")]) "_id"
      = false ∧
    dictGet (to_public_dict [("_id", Value.vOid "5f"), ("title", Value.vStr "Dune")]) "id"
      = some (Value.vStr "5f") ∧
    dictGet (to_public_dict [("_id", Value.vOid "5f"), ("title", Value.vStr "Dune")]) "title"
      = some (Value.vStr "Dune") :=
  ⟨(to_public_c4 [("_id", Value.vOid "5f"), ("title", Value.vStr "Dune")]
      (Value.vOid "5f") (by decide) (by decide)).1,
   (to_public_c4 [("_id", Value.vOid "5f"), ("title", Value.vStr "Dune")]
      (Value.vOid "5f") (by decide) (by decide)).2.1,
   (to_public_c4 [("_id", Value.vOid "5f"), ("title", Value.vStr "Dune")]
      (Value.vOid "5f") (by decide) (by decide)).2.2.1 "title" (by decide) (by decide)⟩

/-- Claim C10: `to_public` never mutates its argument.  In the
state-passing embedding `to_public_frame`, which tracks the caller's dict
object (mutations target the copy made by `doc.copy()`), the caller's
object is returned unchanged and the result is exactly `to_public` of the
input. -/
theorem to_public_c10 (doc : Option Dict) :
    (to_public_frame doc).1 = doc ∧ (to_public_frame doc).2 = to_public doc := by
  cases doc with
  | none => exact ⟨rfl, rfl⟩
  | some d =>
    cases hd : d.isEmpty with
    | true => simp [to_public_frame, hd, to_public, to_public_dict]
    | false =>
      cases hv : dictGet d "_id" with
      | none => simp [to_public_frame, hd, hv, to_public, to_public_dict, toPublicCore]
      | some v => simp [to_public_frame, hd, hv, to_public, to_public_dict, toPublicCore]

/-- Claim C2: `get_listing` fails with `MalformedId` (HTTP 400) exactly
when the identifier string does not parse as an ObjectId; when it parses,
it fails with `NotFound` (HTTP 404) exactly when no listing document
matches the parsed identifier, and otherwise returns the matched document
in public shape. -/
theorem get_listing_c2 (lid : String) (s : Store) :
    (parseOid lid = none ↔ get_listing lid s = .error (.http 400 "Invalid ID")) ∧
    (∀ oid : String, parseOid lid = some oid →
      (find_one s.listing [("_id", .vOid oid)] = none ↔
        get_listing lid s = .error (.http 404 "Not found")) ∧
      (∀ doc : Dict, find_one s.listing [("_id", .vOid oid)] = some doc →
        get_listing lid s = .ok (to_public_dict doc))) := by
  have keyNe : ∀ (oid : String) (doc : Dict),
      find_one s.listing [("_id", .vOid oid)] = some doc → doc.isEmpty = false := by
    intro oid doc hdoc
    have hm := find_one_some_matches _ _ _ hdoc
    rw [matchesFlt_single, beq_iff_eq] at hm
    cases doc with
    | nil => simp [dictGet] at hm
    | cons x xs => rfl
  refine ⟨⟨fun h => by simp [get_listing, h], fun h => ?_⟩, ?_⟩
  · cases hp : parseOid lid with
    | none => rfl
    | some oid =>
      exfalso
      cases hf : find_one s.listing [("_id", .vOid oid)] with
      | none => simp [get_listing, hp, hf] at h
      | some doc => simp [get_listing, hp, hf, keyNe oid doc hf] at h
  · intro oid hp
    refine ⟨⟨fun hf => by simp [get_listing, hp, hf], fun h => ?_⟩,
            fun doc hdoc => by simp [get_listing, hp, hdoc, keyNe oid doc hdoc]⟩
    cases hf : find_one s.listing [("_id", .vOid oid)] with
    | none => rfl
    | some doc => simp [get_listing, hp, hf, keyNe oid doc hf] at h

theorem get_listing_c2_witness :
    get_listing "not-a-valid-object-id!!!"
        ⟨[], [[("_id", Value.vOid "00000000000000000000abcd"),
               ("title", Value.vStr "Dune")]], 1⟩
      = .error (.http 400 "Invalid ID") ∧
    get_listing "00000000000000000000abcd"
        ⟨[], [[("_id", Value.vOid "00000000000000000000abcd"),
               ("title", Value.vStr "Dune")]], 1⟩
      = .ok [("title", Value.vStr "Dune"),
             ("id", Value.vStr "00000000000000000000abcd")] ∧
    get_listing "ffffffffffffffffffffffff"
        ⟨[], [[("_id", Value.vOid "00000000000000000000abcd"),
               ("title", Value.vStr "Dune")]], 1⟩
      = .error (.http 404 "Not found") := by
  refine ⟨?_, ?_, ?_⟩
  · exact (get_listing_c2 "not-a-valid-object-id!!!" _).1.mp (by decide)
  · have h := ((get_listing_c2 "00000000000000000000abcd"
        ⟨[], [[("_id", Value.vOid "00000000000000000000abcd"),
               ("title", Value.vStr "Dune")]], 1⟩).2 "00000000000000000000abcd"
        (by decide)).2
        [("_id", Value.vOid "00000000000000000000abcd"), ("title", Value.vStr "Dune")]
        (by decide)
    rw [h]
    rfl
  · exact ((get_listing_c2 "ffffffffffffffffffffffff"
        ⟨[], [[("_id", Value.vOid "00000000000000000000abcd"),
               ("title", Value.vStr "Dune")]], 1⟩).2 "ffffffffffffffffffffffff"
        (by decide)).1.mp (by decide)

/-- Claim C3: a login whose email matches no stored user and a login whose
matched user stores a different password hash fail with the same error
value (`InvalidCredentials`, HTTP 401, "Invalid credentials"): nothing in
the result distinguishes the two cases. -/
theorem login_c3 (p q : LoginPayload) (s t : Store)
    (hA : find_one s.user [("email", .vStr p.email)] = none)
    (u : Dict) (hB : find_one t.user [("email", .vStr q.email)] = some u)
    (hpw : dictGet u "password_hash" ≠ some (.vStr q.password_hash)) :
    login p s = .error (.http 401 "Invalid credentials") ∧
    login q t = .error (.http 401 "Invalid credentials") ∧
    login p s = login q t := by
  have h1 : login p s = .error (.http 401 "Invalid credentials") := by
    simp [login, hA]
  have h2 : login q t = .error (.http 401 "Invalid credentials") := by
    cases hu : u.isEmpty with
    | true => simp [login, hB, hu]
    | false => simp [login, hB, hu, hpw]
  exact ⟨h1, h2, h1.trans h2.symm⟩

theorem login_c3_witness :
    login ⟨"ghost@nowhere.com", "h"⟩ ⟨[], [], 0⟩
      = .error (.http 401 "Invalid credentials") ∧
    login ⟨"alice@example.com", "wrong"⟩
        ⟨[[("_id", Value.vOid "00000000000000000000abcd"),
           ("name", Value.vStr "Alice"),
           ("email", Value.vStr "alice@example.com"),
           ("password_hash", Value.vStr "right")]], [], 1⟩
      = .error (.http 401 "Invalid credentials") :=
  ⟨(login_c3 ⟨"ghost@nowhere.com", "h"⟩ ⟨"alice@example.com", "wrong"⟩
      ⟨[], [], 0⟩
      ⟨[[("_id", Value.vOid "00000000000000000000abcd"),
         ("name", Value.vStr "Alice"),
         ("email", Value.vStr "alice@example.com"),
         ("password_hash", Value.vStr "right")]], [], 1⟩
      (by decide)
      [("_id", Value.vOid "00000000000000000000abcd"),
       ("name", Value.vStr "Alice"),
       ("email", Value.vStr "alice@example.com"),
       ("password_hash", Value.vStr "right")]
      (by decide) (by decide)).1,
   (login_c3 ⟨"ghost@nowhere.com", "h"⟩ ⟨"alice@example.com", "wrong"⟩
      ⟨[], [], 0⟩
      ⟨[[("_id", Value.vOid "00000000000000000000abcd"),
         ("name", Value.vStr "Alice"),
         ("email", Value.vStr "alice@example.com"),
         ("password_hash", Value.vStr "right")]], [], 1⟩
      (by decide)
      [("_id", Value.vOid "00000000000000000000abcd"),
       ("name", Value.vStr "Alice"),
       ("email", Value.vStr "alice@example.com"),
       ("password_hash", Value.vStr "right")]
      (by decide) (by decide)).2.1⟩

/-- Claim C6: registering with an email some stored user already has fails
with `DuplicateEmail` (HTTP 400) and inserts nothing (the store is
unchanged); otherwise a `User` document is persisted and the response is
`{id, name, email}` with a non-empty text identifier and no password hash
field. -/
theorem register_c6 (p : RegisterPayload) (s : Store) :
    (pyTruthy (find_one s.user [("email", .vStr p.email)]) = true →
      register p s = (.error (.http 400 "Email already registered"), s)) ∧
    (pyTruthy (find_one s.user [("email", .vStr p.email)]) = false →
      register p s =
        (.ok [("id", .vStr (genOid s.nextId)), ("name", .vStr p.name),
              ("email", .vStr p.email)],
         { s with user := s.user ++ [("_id", .vOid (genOid s.nextId)) :: userFields p],
                  nextId := s.nextId + 1 }) ∧
      genOid s.nextId ≠ "" ∧
      hasKey [("id", .vStr (genOid s.nextId)), ("name", .vStr p.name),
              ("email", .vStr p.email)] "password_hash" = false) := by
  constructor
  · intro h
    simp [register, h]
  · intro h
    refine ⟨?_, genOid_ne_empty s.nextId, ?_⟩
    · simp [register, h, create_document]
    · simp [hasKey]

theorem register_c6_witness :
    register ⟨"Bob", "alice@example.com", "h2"⟩
        ⟨[[("_id", Value.vOid "00000000000000000000abcd"),
           ("name", Value.vStr "Alice"),
           ("email", Value.vStr "alice@example.com"),
           ("password_hash", Value.vStr "h1")]], [], 1⟩
      = (.error (.http 400 "Email already registered"),
         ⟨[[("_id", Value.vOid "00000000000000000000abcd"),
            ("name", Value.vStr "Alice"),
            ("email", Value.vStr "alice@example.com"),
            ("password_hash", Value.vStr "h1")]], [], 1⟩) ∧
    register ⟨"Alice", "alice@example.com", "h1"⟩ ⟨[], [], 0⟩
      = (.ok [("id", Value.vStr (genOid 0)), ("name", Value.vStr "Alice"),
              ("email", Value.vStr "alice@example.com")],
         ⟨[("_id", Value.vOid (genOid 0)) ::
             userFields ⟨"Alice", "alice@example.com", "h1"⟩], [], 1⟩) :=
  ⟨(register_c6 ⟨"Bob", "alice@example.com", "h2"⟩
      ⟨[[("_id", Value.vOid "00000000000000000000abcd"),
         ("name", Value.vStr "Alice"),
         ("email", Value.vStr "alice@example.com"),
         ("password_hash", Value.vStr "h1")]], [], 1⟩).1 (by decide),
   ((register_c6 ⟨"Alice", "alice@example.com", "h1"⟩ ⟨[], [], 0⟩).2
      (by decide)).1⟩

theorem addClause_all (fq : List (String × String)) (key : String)
    (f : Option String) (d : Dict) :
    (addClause fq key f).all (fun fp => regexClauseMatches d fp.1 fp.2)
      = (fq.all (fun fp => regexClauseMatches d fp.1 fp.2) && specClause f key d) := by
  rcases f with _ | x
  · simp [addClause, specClause]
  · cases hx : x.isEmpty with
    | true => simp [addClause, specClause, hx]
    | false => simp [addClause, specClause, hx, List.all_append]

/-- Claim C5: the listings returned by `list_listings` are exactly the
stored listing documents satisfying the conjunction of the supplied
filters, in public shape and store order; a supplied non-empty filter
requires the stored field to be text containing the pattern
case-insensitively, while an absent filter (and a supplied empty filter,
which is a substring of everything — claim C9) imposes no constraint. -/
theorem list_listings_c5 (t a i : Option String) (s : Store) :
    list_listings t a i s =
      (s.listing.filter fun d =>
        specClause t "title" d && specClause a "author" d &&
          specClause i "isbn" d).map to_public_dict := by
  have hmain : ∀ d ∈ s.listing,
      (addClause (addClause (addClause [] "title" t) "author" a) "isbn" i).all
          (fun fp => regexClauseMatches d fp.1 fp.2)
        = (specClause t "title" d && specClause a "author" d &&
            specClause i "isbn" d) := by
    intro d _
    rw [addClause_all, addClause_all, addClause_all]
    simp
  have hshape : list_listings t a i s
      = (s.listing.filter fun d =>
          (addClause (addClause (addClause [] "title" t) "author" a) "isbn" i).all
            (fun fp => regexClauseMatches d fp.1 fp.2)).map to_public_dict := rfl
  rw [hshape, List.filter_congr hmain]

/-- Claim C9: a filter parameter supplied as the empty string imposes no
constraint — the result of `list_listings` is the same as with that
parameter absent (only truthy parameters contribute a clause to
`filter_q`). -/
theorem list_listings_c9 (s : Store) (x y : Option String) :
    list_listings (some "") x y s = list_listings none x y s ∧
    list_listings x (some "") y s = list_listings x none y s ∧
    list_listings x y (some "") s = list_listings x y none s :=
  ⟨rfl, rfl, rfl⟩

/-- Claim C1 is false of the code as stated: on a CreateListing request
with price `-1` (and an existing seller), request validation accepts the
body — `ListingCreate.price` carries no bound — and the handler issues the
seller-existence `find_one` against the `user` collection before the
negative price is rejected (by `schemas.Listing` construction), so a store
access does occur. -/
theorem create_listing_c1_counterexample :
    (⟨"Dune", "Herbert", none, -1, "Good", none, none,
        "alice@example.com"⟩ : ListingCreate).price < 0 ∧
    listingCreateValid ⟨"Dune", "Herbert", none, -1, "Good", none, none,
        "alice@example.com"⟩ = true ∧
    (create_listing_endpoint ⟨"Dune", "Herbert", none, -1, "Good", none, none,
        "alice@example.com"⟩ aliceStore).2.1 ≠ [] ∧
    (create_listing_endpoint ⟨"Dune", "Herbert", none, -1, "Good", none, none,
        "alice@example.com"⟩ aliceStore).2.1 = [.findOneOp "user"] ∧
    (create_listing_endpoint ⟨"Dune", "Herbert", none, -1, "Good", none, none,
        "alice@example.com"⟩ aliceStore).1 = .error .pydanticValidation := by
  refine ⟨by decide, by decide, by decide, rfl, rfl⟩

/-- Claim C1 (amended): request validation does not bound `price`, so a
negative-price CreateListing request reaches the handler, which first
issues the seller-existence `find_one` against the `user` collection; the
request is then rejected without any insert and without any store change —
by the pydantic `ValidationError` raised at `Listing` construction when
the seller exists, by `SellerNotFound` otherwise. -/
theorem create_listing_c1_amended (p : ListingCreate) (s : Store)
    (hval : listingCreateValid p = true) (hneg : p.price < 0) :
    (create_listing_endpoint p s).2.1 = [.findOneOp "user"] ∧
    (create_listing_endpoint p s).2.2 = s ∧
    (pyTruthy (find_one s.user [("email", .vStr p.seller_email)]) = true →
      (create_listing_endpoint p s).1 = .error .pydanticValidation) ∧
    (pyTruthy (find_one s.user [("email", .vStr p.seller_email)]) = false →
      (create_listing_endpoint p s).1 = .error (.http 400 "Seller not found")) := by
  have hnle : ¬(0 ≤ p.price) := not_le.mpr hneg
  have hmv : listingModelValid p = false := by
    simp [listingModelValid, hnle]
  have hend : create_listing_endpoint p s = create_listing p s := by
    simp [create_listing_endpoint, hval]
  cases hsell : pyTruthy (find_one s.user [("email", .vStr p.seller_email)]) with
  | true =>
    have hc : create_listing p s
        = (.error .pydanticValidation, [.findOneOp "user"], s) := by
      simp [create_listing, hsell, hmv]
    rw [hend, hc]
    exact ⟨rfl, rfl, fun _ => rfl, fun hf => Bool.noConfusion hf⟩
  | false =>
    have hc : create_listing p s
        = (.error (.http 400 "Seller not found"), [.findOneOp "user"], s) := by
      simp [create_listing, hsell]
    rw [hend, hc]
    exact ⟨rfl, rfl, fun ht => Bool.noConfusion ht, fun _ => rfl⟩

theorem create_listing_c1_amended_witness :
    (create_listing_endpoint ⟨"Dune", "Herbert", none, -1, "Good", none, none,
        "alice@example.com"⟩ aliceStore).2.1 = [.findOneOp "user"] ∧
    (create_listing_endpoint ⟨"Dune", "Herbert", none, -1, "Good", none, none,
        "alice@example.com"⟩ aliceStore).2.2 = aliceStore :=
  ⟨(create_listing_c1_amended ⟨"Dune", "Herbert", none, -1, "Good", none, none,
      "alice@example.com"⟩ aliceStore (by decide) (by decide)).1,
   (create_listing_c1_amended ⟨"Dune", "Herbert", none, -1, "Good", none, none,
      "alice@example.com"⟩ aliceStore (by decide) (by decide)).2.1⟩

theorem to_public_newListingDoc (p : ListingCreate) (oid : String) :
    to_public_dict (newListingDoc p oid)
      = listingFields p ++ [("id", .vStr oid)] :=
  rfl

/-- Claim C7 is false of the code as stated: with a registered seller but a
negative price, `create_listing` neither persists a listing nor fails with
`SellerNotFound` — `Listing` construction raises a `ValidationError`
(`price` is `ge=0` in `schemas.py`) and the store is unchanged. -/
theorem create_listing_c7_counterexample :
    pyTruthy (find_one aliceStore.user
        [("email", .vStr (⟨"Emma", "Austen", none, -2, "Fair", none, none,
            "alice@example.com"⟩ : ListingCreate).seller_email)]) = true ∧
    (create_listing ⟨"Emma", "Austen", none, -2, "Fair", none, none,
        "alice@example.com"⟩ aliceStore).1 = .error .pydanticValidation ∧
    (create_listing ⟨"Emma", "Austen", none, -2, "Fair", none, none,
        "alice@example.com"⟩ aliceStore).2.2 = aliceStore := by
  refine ⟨by decide, rfl, rfl⟩

/-- Claim C7 (amended): if no user matches `seller_email`, CreateListing
fails with `SellerNotFound` (HTTP 400) and nothing is inserted; if a user
matches and the payload also satisfies the persisted `Listing` schema
(`price ≥ 0`), a listing with `status="active"` is persisted under the
fresh store identifier and `{id}` is returned, and `get_listing` on that
id recovers the submitted `title`, `author` and `price`. -/
theorem create_listing_c7_amended (p : ListingCreate) (s : Store) :
    (pyTruthy (find_one s.user [("email", .vStr p.seller_email)]) = false →
      create_listing p s = (.error (.http 400 "Seller not found"),
        [.findOneOp "user"], s)) ∧
    (pyTruthy (find_one s.user [("email", .vStr p.seller_email)]) = true →
      0 ≤ p.price → listingCreateValid p = true →
      (∀ d ∈ s.listing, dictGet d "_id" ≠ some (.vOid (genOid s.nextId))) →
      create_listing p s =
        (.ok [("id", .vStr (genOid s.nextId))],
         [.findOneOp "user", .insertOp "listing"],
         { s with listing := s.listing ++ [newListingDoc p (genOid s.nextId)],
                  nextId := s.nextId + 1 }) ∧
      dictGet (newListingDoc p (genOid s.nextId)) "status"
        = some (.vStr "active") ∧
      get_listing (genOid s.nextId)
          { s with listing := s.listing ++ [newListingDoc p (genOid s.nextId)],
                   nextId := s.nextId + 1 }
        = .ok (listingFields p ++ [("id", .vStr (genOid s.nextId))]) ∧
      dictGet (listingFields p ++ [("id", .vStr (genOid s.nextId))]) "title"
        = some (.vStr p.title) ∧
      dictGet (listingFields p ++ [("id", .vStr (genOid s.nextId))]) "author"
        = some (.vStr p.author) ∧
      dictGet (listingFields p ++ [("id", .vStr (genOid s.nextId))]) "price"
        = some (.vNum p.price)) := by
  constructor
  · intro h
    simp [create_listing, h]
  · intro hs hpr hval hfresh
    have hval' : isValidEmail p.seller_email = true := hval
    have hmv : listingModelValid p = true := by
      rw [listingModelValid, Bool.and_eq_true]
      exact ⟨decide_eq_true hpr, hval'⟩
    have hstep : create_listing p s =
        (.ok [("id", .vStr (genOid s.nextId))],
         [.findOneOp "user", .insertOp "listing"],
         { s with listing := s.listing ++ [newListingDoc p (genOid s.nextId)],
                  nextId := s.nextId + 1 }) := by
      simp [create_listing, hs, hmv, create_document, newListingDoc]
    have hfind : find_one (s.listing ++ [newListingDoc p (genOid s.nextId)])
        [("_id", .vOid (genOid s.nextId))]
        = some (newListingDoc p (genOid s.nextId)) := by
      apply find_one_append_fresh
      · intro d' hd'
        rw [matchesFlt_single]
        cases hb : dictGet d' "_id" == some (Value.vOid (genOid s.nextId)) with
        | false => rfl
        | true => exact absurd (beq_iff_eq.mp hb) (hfresh d' hd')
      · rw [matchesFlt_single]
        simp [newListingDoc, dictGet]
    have hget : get_listing (genOid s.nextId)
        { s with listing := s.listing ++ [newListingDoc p (genOid s.nextId)],
                 nextId := s.nextId + 1 }
        = .ok (listingFields p ++ [("id", .vStr (genOid s.nextId))]) := by
      have hne : (newListingDoc p (genOid s.nextId)).isEmpty = false := rfl
      rw [← to_public_newListingDoc]
      simp [get_listing, parseOid_genOid, hfind, hne]
    exact ⟨hstep, rfl, hget, rfl, rfl, rfl⟩

theorem create_listing_c7_amended_witness :
    create_listing ⟨"Dune", "Herbert", some "9780441172719", 5, "Good",
        none, none, "alice@example.com"⟩ aliceStore =
      (.ok [("id", .vStr (genOid 1))],
       [.findOneOp "user", .insertOp "listing"],
       ⟨[aliceDoc],
        [newListingDoc ⟨"Dune", "Herbert", some "9780441172719", 5, "Good",
            none, none, "alice@example.com"⟩ (genOid 1)], 2⟩) ∧
    get_listing (genOid 1)
        ⟨[aliceDoc],
         [newListingDoc ⟨"Dune", "Herbert", some "9780441172719", 5, "Good",
             none, none, "alice@example.com"⟩ (genOid 1)], 2⟩
      = .ok (listingFields ⟨"Dune", "Herbert", some "9780441172719", 5, "Good",
          none, none, "alice@example.com"⟩ ++ [("id", .vStr (genOid 1))]) :=
  ⟨((create_listing_c7_amended ⟨"Dune", "Herbert", some "9780441172719", 5,
      "Good", none, none, "alice@example.com"⟩ aliceStore).2
      (by decide) (by decide) (by decide) (by simp [aliceStore])).1,
   ((create_listing_c7_amended ⟨"Dune", "Herbert", some "9780441172719", 5,
      "Good", none, none, "alice@example.com"⟩ aliceStore).2
      (by decide) (by decide) (by decide) (by simp [aliceStore])).2.2.1⟩

/-- Claim C8 is false of the code as stated: neither `RegisterPayload` nor
`ListingCreate` declares a non-emptiness constraint, so a Register payload
with empty `name` and a CreateListing payload with empty `title` and
`author` pass validation — no `ValidationError` is raised for them. -/
theorem validation_c8_counterexample :
    registerValid ⟨"", "a@b.com", "x"⟩ = true ∧
    (register_endpoint ⟨"", "a@b.com", "x"⟩ ⟨[], [], 0⟩).1
      = .ok [("id", .vStr (genOid 0)), ("name", .vStr ""),
             ("email", .vStr "a@b.com")] ∧
    listingCreateValid ⟨"", "", none, 1, "Good", none, none, "a@b.com"⟩
      = true ∧
    (create_listing_endpoint ⟨"", "", none, 1, "Good", none, none, "a@b.com"⟩
        ⟨[], [], 0⟩).1 = .error (.http 400 "Seller not found") := by
  refine ⟨by decide, rfl, by decide, rfl⟩

/-- Claim C8 (amended): validation enforces only field presence, field
type and email format — it accepts any `name` on Register and any `title`
and `author` on CreateListing, including empty strings. -/
theorem validation_c8_amended (name ph title author condition email : String)
    (isbn cover description : Option String) (price : Rat)
    (he : isValidEmail email = true) :
    registerValid ⟨name, email, ph⟩ = true ∧
    listingCreateValid
      ⟨title, author, isbn, price, condition, cover, description, email⟩
      = true :=
  ⟨he, he⟩

theorem validation_c8_amended_witness :
    registerValid ⟨"", "a@b.com", "x"⟩ = true ∧
    listingCreateValid ⟨"", "", none, 1, "Good", none, none, "a@b.com"⟩
      = true :=
  validation_c8_amended "" "x" "" "" "Good" "a@b.com" none none none 1
    (by decide)

end BookMarket
